import Mathlib

/-!
# Verification of the cookiecutter template-rendering and context-resolution pipeline

Shallow embedding of the repository's core modules:

* `cookiecutter/generate.py` (`apply_overwrites_to_context`, `generate_context`,
  `generate_file`, `render_and_create_dir`, `_run_hook_from_repo_dir`, `generate_files`,
  `is_copy_only_path`)
* `cookiecutter/prompt.py` (`render_variable`, `prompt_for_config`,
  `YesNoPrompt.process_response`)
* `cookiecutter/environment.py` (`ExtensionLoaderMixin`, `StrictEnvironment`) together
  with `utils.create_env_with_context` — the environment construction that
  `prompt_for_config`, `generate_files` and `run_script_with_context` each perform
  before their main work
* `cookiecutter/hooks.py` (`run_script`, `run_script_with_context`, `run_hook`)
* `cookiecutter/utils.py` (`work_in`, `make_sure_path_exists`, `rmtree`)

Python's JSON-like data is modelled by `Value`; Python dicts (`OrderedDict` semantics:
updates keep position, new keys append) are association lists.  Exceptions are modelled
by the `PyErr` sum type returned through `Except`.  The external Jinja2 engine (a
third-party dependency, not part of this repository) is modelled from its documented
strict-mode semantics: a template is literal text interleaved with
`\x7b\x7b name.attr|filter \x7d\x7d` expressions; rendering with keyword arguments
resolves the leading name among those keywords and fails (StrictUndefined) when it is
absent.  The filesystem, the process working directory and hook subprocesses are
modelled by the explicit state `St`; every mutation is also recorded in an event trace
so that ordering properties can be stated.
-/

set_option autoImplicit false

namespace Cookiecutter

/-- A JSON-like Python value (string, int, bool, list or (ordered) dict). -/
inductive Value where
  | str (s : String)
  | int (n : Int)
  | bool (b : Bool)
  | list (xs : List Value)
  | dict (entries : List (String × Value))
deriving Inhabited

/-- Python exceptions that the embedded code can raise.  The classes themselves live in
`cookiecutter/exceptions.py` (not present under `src/`); only their identity and payload
matter here, as modelled from how the `src/` modules raise and catch them. -/
inductive PyErr where
  /-- `UndefinedVariableInTemplate(message, error, context)` raised by
  `render_variable` / `run_script_with_context`. -/
  | uvit (msg : String) (ctx : List (String × Value))
  /-- A Jinja2 `UndefinedError` that escapes without being wrapped. -/
  | undefinedError (msg : String)
  | keyError (key : String)
  | indexError
  | stopIteration
  | typeError (msg : String)
  | attributeError (msg : String)
  /-- `NameError` for an identifier used without being imported/defined. -/
  | nameError (name : String)
  /-- `UnknownExtension` from `cookiecutter.exceptions`, raised by
  `ExtensionLoaderMixin` when loading a requested extension fails. -/
  | unknownExtension (msg : String)
  /-- `subprocess.CalledProcessError(returncode, cmd)` from `subprocess.check_call`. -/
  | calledProcessError (returncode : Nat)
  /-- `FailedHookException` from `cookiecutter.exceptions`. -/
  | failedHook (msg : String)
  | contextDecoding (msg : String)
deriving Inhabited

/-! ## Association-list (Python dict / OrderedDict) helpers -/

/-- `d[k]` lookup returning the first binding. -/
def lookupName (d : List (String × Value)) (k : String) : Option Value :=
  match d with
  | [] => none
  | (k0, v) :: rest => if k0 = k then some v else lookupName rest k

/-- `k in d` membership test. -/
def hasKey (d : List (String × Value)) (k : String) : Bool :=
  match d with
  | [] => false
  | (k0, _) :: rest => if k0 = k then true else hasKey rest k

/-- `d[k] = v` assignment: replace in place if the key exists, else append
(`OrderedDict` keeps insertion order). -/
def setKey (d : List (String × Value)) (k : String) (v : Value) :
    List (String × Value) :=
  match d with
  | [] => [(k, v)]
  | (k0, v0) :: rest =>
      if k0 = k then (k0, v) :: rest else (k0, v0) :: setKey rest k v

/-! ## Character-level string helpers

All text processing is done on `String.data` (`List Char`) by structural recursion so
that every definition evaluates by kernel reduction. -/

def lbrace : Char := Char.ofNat 123
def rbrace : Char := Char.ofNat 125

/-- Split a character list on a separator character. -/
def splitChar (sep : Char) : List Char → List Char → List (List Char)
  | [], acc => [acc.reverse]
  | c :: rest, acc =>
      if c == sep then acc.reverse :: splitChar sep rest []
      else splitChar sep rest (c :: acc)

/-- Drop leading spaces. -/
def dropSpaces : List Char → List Char
  | [] => []
  | c :: rest => if c == ' ' then dropSpaces rest else c :: rest

/-- Strip leading and trailing spaces. -/
def trimChars (cs : List Char) : List Char :=
  ((dropSpaces ((dropSpaces cs.reverse)).reverse)).reverse.reverse

/-- Lower-case a string character by character (Python `str.lower`, ASCII range). -/
def lowerS (s : String) : String :=
  String.mk (s.data.map Char.toLower)

/-! ## The template engine (external collaborator)

Modelled from the spec (section 4.1) and Jinja2's documented strict-mode behaviour:
template text is literal runs interleaved with expressions; an expression is a
dot-separated name path followed by optional pipe-separated filters; rendering with
keyword arguments `render(**names)` resolves the first path segment among `names` and
raises `UndefinedError` when it is missing (StrictUndefined). -/

/-- One parsed template part. -/
inductive TPart where
  | lit (cs : List Char)
  | expr (path : List String) (filters : List String)
deriving Inhabited

/-- Build an expression part from the raw characters between the braces. -/
def mkExpr (cs : List Char) : TPart :=
  match (splitChar '|' cs []).map trimChars with
  | [] => TPart.expr [] []
  | p :: fs =>
      TPart.expr (((splitChar '.' p []).map trimChars).map String.mk)
        (fs.map String.mk)

/-- Scan template source text into parts.  The Bool flag is true while inside a
`\x7b\x7b ... \x7d\x7d` expression; `acc` collects the current run (reversed). -/
def scanTmpl : List Char → Bool → List Char → List TPart
  | [], _, acc => if acc.isEmpty then [] else [TPart.lit acc.reverse]
  | [c1], _, acc => [TPart.lit (c1 :: acc).reverse]
  | c1 :: c2 :: rest2, false, acc =>
      if c1 == lbrace && c2 == lbrace then
        TPart.lit acc.reverse :: scanTmpl rest2 true []
      else
        scanTmpl (c2 :: rest2) false (c1 :: acc)
  | c1 :: c2 :: rest2, true, acc =>
      if c1 == rbrace && c2 == rbrace then
        mkExpr acc.reverse :: scanTmpl rest2 false []
      else
        scanTmpl (c2 :: rest2) true (c1 :: acc)

/-- Python `str()` of a value, as Jinja2 prints it into the output. -/
def pyStr : Value → String
  | Value.str s => s
  | Value.int n => toString n
  | Value.bool b => if b then "True" else "False"
  | Value.list _ => "[...]"
  | Value.dict _ => "\x7b...\x7d"

/-- Attribute / item access `v.attr` (Jinja getattr falls back to getitem on dicts). -/
def getAttr (v : Value) (a : String) : Except String Value :=
  match v with
  | Value.dict d =>
      match lookupName d a with
      | some w => Except.ok w
      | none => Except.error (s!"dict object has no attribute {a}")
  | _ => Except.error (s!"value has no attribute {a}")

/-- Resolve a dotted name path against the keyword arguments of the render call. -/
def evalPath (names : List (String × Value)) : List String → Except String Value
  | [] => Except.error "empty expression"
  | n :: rest =>
      match lookupName names n with
      | none => Except.error (s!"{n} is undefined")
      | some v =>
          rest.foldlM (fun acc a => getAttr acc a) v

/-- Apply one Jinja2 filter. -/
def applyFilter (v : Value) (f : String) : Except String Value :=
  if f = "lower" then Except.ok (Value.str (lowerS (pyStr v)))
  else if f = "upper" then
    Except.ok (Value.str (String.mk ((pyStr v).data.map Char.toUpper)))
  else Except.error (s!"No filter named {f}")

/-- Render one template part. -/
def renderPart (names : List (String × Value)) : TPart → Except String String
  | TPart.lit cs => Except.ok (String.mk cs)
  | TPart.expr path filters => do
      let v ← evalPath names path
      let v ← filters.foldlM (fun acc f => applyFilter acc f) v
      pure (pyStr v)

/-- Render a parsed template. -/
def renderParts (names : List (String × Value)) : List TPart → Except String String
  | [] => Except.ok ""
  | p :: rest => do
      let s ← renderPart names p
      let t ← renderParts names rest
      pure (s ++ t)

/-- `env.from_string(s).render(**names)`: parse then render, `UndefinedError`
represented as `Except.error` carrying the message. -/
def renderStr (names : List (String × Value)) (s : String) : Except String String :=
  renderParts names (scanTmpl s.data false [])

/-! ## Environment construction (`environment.py`, `utils.py`)

`create_env_with_context(context)` builds a `StrictEnvironment`, whose
`ExtensionLoaderMixin.__init__` does:

1. `self._read_extensions(context)`: `context.get("cookiecutter", \x7b\x7d)
   .get("_extensions", [])` stringified element-wise — `.get` on a non-mapping raises
   `AttributeError`, iterating a non-iterable raises `TypeError`;
2. `super().__init__(**kwargs)`: the Jinja2 `Environment` imports each named extension
   (the built-in `cookiecutter.extensions.*` ones always load; whether a *requested*
   name loads is the external input `importable`); an `ImportError` is caught and
   re-raised as `UnknownExtension`;
3. `self.extensions = \x7bext.__name__: ext for ext in self.extensions\x7d`
   (environment.py line 45): Jinja2 stores `extensions` as a dict keyed by identifier
   *strings*, so the iteration yields strings and `str` has no `__name__` — this
   comprehension raises `AttributeError` on every construction that reaches it, and
   only `ImportError` is caught.

Consequently the construction never succeeds: it raises `UnknownExtension` when a
requested extension cannot load, and `AttributeError` otherwise. -/

/-- `ExtensionLoaderMixin._read_extensions(context)` combined with the stringification
`[str(ext) for ext in ...]` of the extension identifiers. -/
def readExtensions (context : List (String × Value)) : Except PyErr (List String) :=
  match lookupName context "cookiecutter" with
  | none => Except.ok []
  | some (Value.dict cc) =>
      match lookupName cc "_extensions" with
      | none => Except.ok []
      | some (Value.list xs) => Except.ok (xs.map pyStr)
      | some (Value.str s) => Except.ok (s.data.map (fun c => String.mk [c]))
      | some (Value.dict d) => Except.ok (d.map Prod.fst)
      | some _ => Except.error (PyErr.typeError "object is not iterable")
  | some _ => Except.error (PyErr.attributeError "object has no attribute get")

/-- `create_env_with_context(context)` from `utils.py` = `StrictEnvironment(context=
context, loader=None)`.  The outcome is always an exception (see the section comment):
`UnknownExtension` when some requested extension is not importable, otherwise the
`AttributeError` from `ext.__name__` over the extension dict's string keys. -/
def createEnvWithContext (importable : String → Bool)
    (context : List (String × Value)) : Except PyErr Unit :=
  match readExtensions context with
  | Except.error e => Except.error e
  | Except.ok exts =>
      if exts.all importable then
        Except.error (PyErr.attributeError "str object has no attribute __name__")
      else
        Except.error (PyErr.unknownExtension "Unable to load extension")

/-! ## Context builder (`generate.py`: `apply_overwrites_to_context`, `generate_context`) -/

/-- `apply_overwrites_to_context(context, overwrite_context, in_dictionary_variable)`
from `generate.py`.  The Python function mutates `context` in place; here the updated
context is returned.  Source behaviour per override entry:

* dict value: ensure `context[key]` exists (create `\x7b\x7d`), then recurse into it
  with `in_dictionary_variable=True`;
* list value: ensure `context[key]` exists (create `[]`), then `extend` it;
* otherwise (scalar): assign to `context[key]` when inside a dictionary variable,
  else to `context["cookiecutter"][key]`.

Operations Python would fail on at runtime (recursing into or extending a non-container,
or a missing `"cookiecutter"` entry) are surfaced as the corresponding `PyErr`. -/
def applyOverwritesToContext (ctx : List (String × Value))
    (overwriteContext : List (String × Value)) (inDictionaryVariable : Bool) :
    Except PyErr (List (String × Value)) :=
  match overwriteContext with
  | [] => Except.ok ctx
  | (key, Value.dict d) :: rest =>
      let ctx1 := if hasKey ctx key then ctx else setKey ctx key (Value.dict [])
      match lookupName ctx1 key with
      | some (Value.dict sub) =>
          match applyOverwritesToContext sub d true with
          | Except.error e => Except.error e
          | Except.ok sub2 =>
              applyOverwritesToContext (setKey ctx1 key (Value.dict sub2)) rest
                inDictionaryVariable
      | _ => Except.error (PyErr.typeError "cannot merge into non-mapping value")
  | (key, Value.list l) :: rest =>
      let ctx1 := if hasKey ctx key then ctx else setKey ctx key (Value.list [])
      match lookupName ctx1 key with
      | some (Value.list xs) =>
          applyOverwritesToContext (setKey ctx1 key (Value.list (xs ++ l))) rest
            inDictionaryVariable
      | _ => Except.error (PyErr.attributeError "object has no attribute extend")
  | (key, v) :: rest =>
      if inDictionaryVariable then
        applyOverwritesToContext (setKey ctx key v) rest inDictionaryVariable
      else
        match lookupName ctx "cookiecutter" with
        | some (Value.dict cc) =>
            applyOverwritesToContext
              (setKey ctx "cookiecutter" (Value.dict (setKey cc key v))) rest
              inDictionaryVariable
        | some _ => Except.error (PyErr.typeError "cookiecutter entry is not a mapping")
        | none => Except.error (PyErr.keyError "cookiecutter")
termination_by sizeOf overwriteContext
decreasing_by all_goals simp_wf <;> omega

/-- `generate_context(context_file, default_context, extra_context)` from `generate.py`,
after the external JSON load: `obj` is the parsed manifest and the function wraps it as
`\x7b"cookiecutter": obj\x7d`, then applies `default_context` and `extra_context` (in that
order) when they are truthy (non-`None`, non-empty). -/
def generateContext (obj : List (String × Value))
    (defaultContext extraContext : Option (List (String × Value))) :
    Except PyErr (List (String × Value)) := do
  let ctx : List (String × Value) := [("cookiecutter", Value.dict obj)]
  let ctx ←
    match defaultContext with
    | some d => if d.isEmpty then pure ctx else applyOverwritesToContext ctx d false
    | none => pure ctx
  let ctx ←
    match extraContext with
    | some e => if e.isEmpty then pure ctx else applyOverwritesToContext ctx e false
    | none => pure ctx
  pure ctx

/-! ## Interactive resolver (`prompt.py`) -/

/-- A raw default from the variable manifest: a string (rendered as a template), a list
of choices, or a mapping of named sub-template options.  `val` wraps any other
already-structured metadata value (as found under reserved `_`-keys). -/
inductive RawVal where
  | str (s : String)
  | choices (options : List Value)
  | table (options : List (String × Value))
  | val (v : Value)
deriving Inhabited

/-- The verbatim `Value` stored for a reserved (`_`-prefixed) key. -/
def RawVal.toValue : RawVal → Value
  | RawVal.str s => Value.str s
  | RawVal.choices os => Value.list os
  | RawVal.table os => Value.dict os
  | RawVal.val v => v

/-- Does the key start with the reserved metadata character? (`key.startswith("_")`). -/
def startsWithUnderscore (k : String) : Bool :=
  match k.data with
  | c :: _ => c == '_'
  | [] => false

/-- `render_variable(env, raw, cookiecutter_dict)` from `prompt.py`: render `raw` with
`template.render(**cookiecutter_dict)` and wrap a Jinja2 `UndefinedError` into
`UndefinedVariableInTemplate(str(err), err, cookiecutter_dict)`.  Note the source passes
the partial context as keyword arguments (`**cookiecutter_dict`), so the variables
resolved so far are the top-level template names. -/
def renderVariable (cookiecutterDict : List (String × Value)) (raw : String) :
    Except PyErr String :=
  match renderStr cookiecutterDict raw with
  | Except.ok s => Except.ok s
  | Except.error msg => Except.error (PyErr.uvit msg cookiecutterDict)

/-- One iteration of the `prompt_for_config` loop (the `no_input=True` paths; the
interactive branches call the external `rich` prompt I/O and are outside the model):

* `_`-prefixed key: stored verbatim;
* list default: `prompt_choice_for_config` returns `options[0]` (raises `IndexError`
  when empty);
* dict default: `prompt_choice_for_template` returns the first key (`next(iter(...))`
  raises `StopIteration` when empty);
* string default: `render_variable` against the variables resolved so far;
* any other raw value also reaches `render_variable`, whose `env.from_string(raw)`
  requires a string source and raises `TypeError` (this source has no coercion
  guard for non-string scalars). -/
def promptStep (cookiecutterDict : List (String × Value)) (key : String)
    (raw : RawVal) : Except PyErr (List (String × Value)) :=
  if startsWithUnderscore key then
    Except.ok (setKey cookiecutterDict key raw.toValue)
  else
    match raw with
    | RawVal.choices options =>
        match options with
        | [] => Except.error PyErr.indexError
        | o :: _ => Except.ok (setKey cookiecutterDict key o)
    | RawVal.table options =>
        match options with
        | [] => Except.error PyErr.stopIteration
        | (k0, _) :: _ => Except.ok (setKey cookiecutterDict key (Value.str k0))
    | RawVal.str s =>
        match renderVariable cookiecutterDict s with
        | Except.error e => Except.error e
        | Except.ok rendered =>
            Except.ok (setKey cookiecutterDict key (Value.str rendered))
    | RawVal.val _ =>
        Except.error (PyErr.typeError "from_string expects a string source")

/-- The `for key, raw in context["cookiecutter"].items()` loop of `prompt_for_config`;
an exception raised by any step aborts the whole resolution. -/
def promptLoop (cookiecutterDict : List (String × Value)) :
    List (String × RawVal) → Except PyErr (List (String × Value))
  | [] => Except.ok cookiecutterDict
  | (key, raw) :: rest =>
      match promptStep cookiecutterDict key raw with
      | Except.error e => Except.error e
      | Except.ok d => promptLoop d rest

/-- The JSON value of a manifest held under the context's `"cookiecutter"` key. -/
def manifestToValue (manifest : List (String × RawVal)) : List (String × Value) :=
  manifest.map (fun kv => (kv.1, kv.2.toValue))

/-- `prompt_for_config(context, no_input=True)` from `prompt.py`: first
`env = create_env_with_context(context)` (prompt.py line 237) — whose construction
always raises, see `createEnvWithContext` — then walk the manifest in order, starting
from an empty `cookiecutter_dict`.  The loop after the environment step is
`promptLoop`; it is unreachable in the program as written. -/
def promptForConfig (importable : String → Bool)
    (manifest : List (String × RawVal)) : Except PyErr (List (String × Value)) :=
  match createEnvWithContext importable
      [("cookiecutter", Value.dict (manifestToValue manifest))] with
  | Except.error e => Except.error e
  | Except.ok _ => promptLoop [] manifest

/-! ## Yes/no prompt (`prompt.py`: `YesNoPrompt`) -/

def yesChoices : List String := ["1", "true", "t", "yes", "y", "on"]

def noChoices : List String := ["0", "false", "f", "no", "n", "off"]

/-- `rich`'s `Confirm.validate_error_message`, carried by `InvalidResponse`. -/
def validateErrorMessage : String := "[prompt.invalid]Please enter Y or N"

/-- `YesNoPrompt.process_response(value)` from `prompt.py`: lower-case the input, map
members of `yes_choices` to `True` and of `no_choices` to `False`, and raise
`InvalidResponse` (modelled as `Except.error`) otherwise, which makes the surrounding
`rich` prompt loop re-ask the user. -/
def processResponse (value : String) : Except String Bool :=
  let v := lowerS value
  if v ∈ yesChoices then Except.ok true
  else if v ∈ noChoices then Except.ok false
  else Except.error validateErrorMessage

/-! ## Filesystem, working directory and subprocess state

The generation engine and the hook runner act on the operating system: they create
directories, write and copy files, delete trees, change the process working directory
and spawn subprocesses.  `St` models that world; every mutation is appended to an event
trace so temporal claims can be stated.  Hook subprocess outcomes are an input
(`hooks : String → Option (String × Nat)`, mapping a hook name to the script source and
its exit status when a script file is discovered). -/

/-- Path split into components (separator `/`), empty components dropped. -/
def splitPath (p : String) : List String :=
  ((splitChar '/' p.data []).map String.mk).filter (fun s => s ≠ "")

/-- Is the path absolute? -/
def isAbs (p : String) : Bool :=
  match p.data with
  | c :: _ => c == '/'
  | [] => false

/-- The component stack step of Python `os.path.normpath`: drop `.`, let `..` cancel
the previous component. -/
def normFold (stack : List String) : List String → List String
  | [] => stack.reverse
  | part :: rest =>
      if part = "." then normFold stack rest
      else if part = ".." then
        match stack with
        | [] => normFold [".."] rest
        | top :: s2 =>
            if top = ".." then normFold (part :: stack) rest else normFold s2 rest
      else normFold (part :: stack) rest

/-- Join components with `/`. -/
def joinParts : List String → String
  | [] => ""
  | [p] => p
  | p :: rest => p ++ "/" ++ joinParts rest

/-- `os.path.normpath`. -/
def normpath (p : String) : String :=
  let parts := normFold [] (splitPath p)
  if isAbs p then "/" ++ joinParts parts
  else if parts.isEmpty then "." else joinParts parts

/-- `os.path.join(a, b)` (for the two-argument uses in the source). -/
def pathJoin (a b : String) : String :=
  if isAbs b then b else if a = "" then b else a ++ "/" ++ b

/-- `os.path.dirname(p)`: everything before the last separator. -/
def dirname (p : String) : String :=
  match (splitChar '/' p.data []).reverse with
  | [] => ""
  | _ :: [] => ""
  | _ :: revInit =>
      let s := joinParts ((revInit.reverse.map String.mk))
      if isAbs p && s = "" then "/" else s

/-- `os.path.abspath(p)` resolved against the current working directory. -/
def abspath (cwd p : String) : String :=
  if isAbs p then normpath p else normpath (pathJoin cwd p)

/-- The modelled filesystem: a set of directories and a map from file path to
content (text or raw bytes, both as `String`). -/
structure FS where
  dirs : List String
  files : List (String × String)
deriving Inhabited

/-- Observable events, in chronological order. -/
inductive Ev where
  | mkdir (p : String)
  | rmtreeEv (p : String)
  | writeFile (p : String)
  | copyFile (src dst : String)
  | hookRun (name : String)
deriving DecidableEq, Inhabited

/-- The world state threaded through the embedded effectful code. -/
structure St where
  cwd : String
  fs : FS
  temps : List String
  trace : List Ev
deriving Inhabited

def St.addEvent (st : St) (e : Ev) : St :=
  { st with trace := st.trace ++ [e] }

/-- `os.path.exists` (directories and files; the OS normalizes the path). -/
def pathExists (st : St) (p : String) : Bool :=
  let q := normpath p
  st.fs.dirs.contains q || (st.fs.files.map Prod.fst).contains q

/-- All ancestor prefixes of a normalized path, shortest first
(e.g. `/a/b ↦ [/a, /a/b]`). -/
def ancestorPaths (p : String) : List String :=
  let parts := splitPath (normpath p)
  let rec build (pre : String) : List String → List String
    | [] => []
    | c :: rest =>
        let nxt := (if pre = "" && isAbs p then "/" ++ c
                    else if pre = "" then c else pre ++ "/" ++ c)
        nxt :: build nxt rest
  build "" parts

/-- Create one directory if missing (recording the creation). -/
def mkdirOne (st : St) (d : String) : St :=
  if st.fs.dirs.contains d then st
  else { (st.addEvent (Ev.mkdir d)) with
         fs := { st.fs with dirs := st.fs.dirs ++ [d] } }

/-- `os.makedirs(p, exist_ok=True)` = `make_sure_path_exists` from `utils.py`:
create every missing ancestor, outermost first. -/
def makeSurePathExists (st : St) (p : String) : St :=
  (ancestorPaths p).foldl mkdirOne st

/-- Is `d` the path `q` itself or strictly inside it? -/
def underPath (q d : String) : Bool :=
  d == q || (q ++ "/").data.isPrefixOf d.data

/-- `rmtree(path)` from `utils.py`: remove the directory and everything inside it. -/
def rmtree (st : St) (p : String) : St :=
  let q := normpath p
  { (st.addEvent (Ev.rmtreeEv q)) with
    fs := { dirs := st.fs.dirs.filter (fun d => !underPath q d),
            files := st.fs.files.filter (fun f => !underPath q f.1) } }

/-- Write a file (create or replace the content at the normalized path). -/
def setFileList (files : List (String × String)) (p content : String) :
    List (String × String) :=
  match files with
  | [] => [(p, content)]
  | (p0, c0) :: rest =>
      if p0 = p then (p0, content) :: rest else (p0, c0) :: setFileList rest p content

/-- `open(outfile, "w").write(...)`. -/
def writeFileSt (st : St) (p content : String) : St :=
  let q := normpath p
  { (st.addEvent (Ev.writeFile q)) with
    fs := { st.fs with files := setFileList st.fs.files q content } }

/-- `shutil.copyfile(src, dst)`; the source bytes are supplied by the template tree. -/
def copyfileSt (st : St) (src dst content : String) : St :=
  let q := normpath dst
  { (st.addEvent (Ev.copyFile src q)) with
    fs := { st.fs with files := setFileList st.fs.files q content } }

/-- `work_in(dirname)` from `utils.py`: save the working directory, `chdir` when a
directory is given, run the enclosed block, and restore the saved directory on every
exit path — the `finally` clause restores it whether the block returns or raises. -/
def workIn {α : Type} (dirnameArg : Option String)
    (act : St → Except PyErr α × St) (st : St) : Except PyErr α × St :=
  let curdir := st.cwd
  let st1 := match dirnameArg with
             | none => st
             | some d => { st with cwd := d }
  let res := act st1
  (res.1, { res.2 with cwd := curdir })

/-! ## Hook runner (`hooks.py`) -/

/-- `run_script(script_path, cwd)` from `hooks.py`: inside `work_in(cwd)`,
`subprocess.check_call` runs the script and raises
`CalledProcessError(returncode)` on a non-zero exit status. -/
def runScript (_scriptPath : String) (exitCode : Nat) (cwd : String) (st : St) :
    Except PyErr Unit × St :=
  workIn (some cwd)
    (fun st1 =>
      if exitCode == 0 then (Except.ok (), st1)
      else (Except.error (PyErr.calledProcessError exitCode), st1))
    st

/-- The fixed name standing for `tempfile.NamedTemporaryFile(delete=False).name`. -/
def tmpScriptPath : String := "/tmp/cookiecutter-rendered-hook"

/-- `run_script_with_context(script_path, cwd, context)` from `hooks.py`, line by
line:

1. `env = create_env_with_context(context)` (hooks.py line 79) — the construction
   always raises, see `createEnvWithContext`, so the remaining steps are dead code in
   the program; they are still modelled in source order:
2. read the script file and render it with `env.from_string(script).render(**context)`;
   on `UndefinedError` the code does `raise UndefinedVariableInTemplate(...)` — but
   `hooks.py` never imports `UndefinedVariableInTemplate`, so that raise statement
   itself raises `NameError`;
3. write the rendered script to a temporary file (`delete=False`);
4. `make_executable(temp_script.name)` (hooks.py line 90) — `hooks.py` never imports
   `make_executable` either, so this call raises `NameError` before any subprocess
   runs; the subsequent `run_script(temp_script.name, cwd)` and
   `os.remove(temp_script.name)` are unreachable on every path, and the temporary
   file, once created, is never removed.

The hook subprocess's would-be exit status (`_exitCode`) is part of the external hook
input but is never consulted, because execution never reaches `run_script`. -/
def runScriptWithContext (importable : String → Bool) (script : String)
    (_exitCode : Nat) (_cwd : String) (context : List (String × Value)) (st : St) :
    Except PyErr Unit × St :=
  match createEnvWithContext importable context with
  | Except.error e => (Except.error e, st)
  | Except.ok _ =>
      match renderStr context script with
      | Except.error _msg =>
          (Except.error (PyErr.nameError "UndefinedVariableInTemplate"), st)
      | Except.ok _rendered =>
          let st1 := { st with temps := st.temps ++ [tmpScriptPath] }
          (Except.error (PyErr.nameError "make_executable"), st1)

/-- `run_hook(hook_name, project_dir, context)` from `hooks.py`: `find_hook` looks for
a matching script (its presence, source text and would-be exit status are the `hooks`
input); when found, the hook is logged as running and executed via
`run_script_with_context`. -/
def runHook (importable : String → Bool) (hooks : String → Option (String × Nat))
    (hookName : String) (projectDir : String) (context : List (String × Value))
    (st : St) : Except PyErr Unit × St :=
  match hooks hookName with
  | none => (Except.ok (), st)
  | some (script, exitCode) =>
      runScriptWithContext importable script exitCode projectDir context
        (st.addEvent (Ev.hookRun hookName))

/-- `_run_hook_from_repo_dir` from `generate.py` (same body as
`run_hook_from_repo_dir` in `hooks.py`): run the hook inside `work_in(repo_dir)`;
only a `FailedHookException` triggers the delete-project-on-failure cleanup before
re-raising; any other exception propagates untouched. -/
def runHookFromRepoDir (importable : String → Bool)
    (hooks : String → Option (String × Nat))
    (repoDir hookName projectDir : String) (context : List (String × Value))
    (deleteProjectOnFailure : Bool) (st : St) : Except PyErr Unit × St :=
  workIn (some repoDir)
    (fun st1 =>
      match runHook importable hooks hookName projectDir context st1 with
      | (Except.ok a, st2) => (Except.ok a, st2)
      | (Except.error e, st2) =>
          match e with
          | PyErr.failedHook m =>
              if deleteProjectOnFailure then
                (Except.error (PyErr.failedHook m), rmtree st2 projectDir)
              else (Except.error (PyErr.failedHook m), st2)
          | other => (Except.error other, st2))
    st

/-! ## Generation engine (`generate.py`) -/

/-- Glob matching with `*` and `?` wildcards; `fuel` (strictly larger than the sum of
the remaining lengths at every call) is only a structural-termination device. -/
def fnmatchFuel : Nat → List Char → List Char → Bool
  | 0, _, _ => false
  | _ + 1, [], [] => true
  | _ + 1, [], _ :: _ => false
  | fuel + 1, p :: ps, [] => if p == '*' then fnmatchFuel fuel ps [] else false
  | fuel + 1, p :: ps, c :: cs =>
      if p == '*' then fnmatchFuel fuel ps (c :: cs) || fnmatchFuel fuel (p :: ps) cs
      else if p == '?' then fnmatchFuel fuel ps cs
      else p == c && fnmatchFuel fuel ps cs

/-- `fnmatch.fnmatch(path, pattern)` (`*` and `?` wildcards). -/
def fnmatch (path pattern : String) : Bool :=
  fnmatchFuel (pattern.data.length + path.data.length + 1) pattern.data path.data

/-- `is_copy_only_path(path, context)` from `generate.py`: match the path against the
patterns under `context.get("_copy_without_render", [])`.  Note the source reads the
key from the *top-level* context mapping.  Non-string patterns and a non-list value
never match a path. -/

def isCopyOnlyPath (path : String) (context : List (String × Value)) : Bool :=
  match lookupName context "_copy_without_render" with
  | some (Value.list pats) =>
      pats.any (fun pv => match pv with
        | Value.str ps => fnmatch path ps
        | _ => false)
  | _ => false

/-- A file of the template tree: binary flag (`binaryornot.is_binary`) and its
on-disk bytes / template source. -/
structure TFile where
  binary : Bool
  content : String
deriving Inhabited

/-- `render_and_create_dir(dirname, context, output_dir, environment,
overwrite_if_exists)` from `generate.py`: render the directory name, normalize the
joined path, and return it — skipping creation when it already exists and
`overwrite_if_exists` is false, otherwise ensuring it exists. -/
def renderAndCreateDir (dirnameTmpl : String) (context : List (String × Value))
    (outputDir : String) (overwriteIfExists : Bool) (st : St) :
    Except PyErr String × St :=
  match renderStr context dirnameTmpl with
  | Except.error msg => (Except.error (PyErr.undefinedError msg), st)
  | Except.ok renderedDirname =>
      let dirToCreate := normpath (pathJoin outputDir renderedDirname)
      if !overwriteIfExists && pathExists st dirToCreate then
        (Except.ok dirToCreate, st)
      else
        (Except.ok dirToCreate, makeSurePathExists st dirToCreate)

/-- `generate_file(project_dir, infile, context, env, skip_if_file_exists)` from
`generate.py`:

1. render the output path from the input path;
2. return `False` untouched when `skip_if_file_exists` and the destination exists;
3. ensure the destination's directory exists;
4. binary input: copy bytes verbatim; text input: load the template through
   `env.get_template` and write the rendered content.  The environment built by
   `generate_files` has no loader (`create_env_with_context(context)` leaves
   `loader=None`), modelled by the `loader` argument: `env.get_template` raises
   `TypeError` when it is `none`. -/
def generateFile (projectDir infile : String) (context : List (String × Value))
    (tfile : TFile) (loader : Option (String → Option String))
    (skipIfFileExists : Bool) (st : St) : Except PyErr Bool × St :=
  match renderStr context infile with
  | Except.error msg => (Except.error (PyErr.undefinedError msg), st)
  | Except.ok renderedName =>
      let outfile := pathJoin projectDir renderedName
      if skipIfFileExists && pathExists st outfile then (Except.ok false, st)
      else
        let st1 := makeSurePathExists st (dirname outfile)
        if tfile.binary then
          (Except.ok true, copyfileSt st1 infile outfile tfile.content)
        else
          match loader with
          | none =>
              (Except.error (PyErr.typeError "no loader for this environment specified"),
               st1)
          | some ld =>
              match ld infile with
              | none => (Except.error (PyErr.typeError "template not found"), st1)
              | some source =>
                  match renderStr context source with
                  | Except.error msg => (Except.error (PyErr.undefinedError msg), st1)
                  | Except.ok renderedContent =>
                      (Except.ok true, writeFileSt st1 outfile renderedContent)

/-- Does the input file name end in `.swp` (vim swap files are ignored)? -/
def endsWithSwp (p : String) : Bool :=
  (".swp".data).isSuffixOf p.data

/-- One `os.walk` entry of the template tree: the relative root, its directory names
and its file names with their content. -/
structure WalkEntry where
  root : String
  dirs : List String
  files : List (String × TFile)
deriving Inhabited

/-- The `for dirname in dirs` loop of the `generate_files` walk. -/
def createDirsLoop (context : List (String × Value)) (outputDir : String)
    (overwriteIfExists : Bool) : List String → St → Except PyErr Unit × St
  | [], st => (Except.ok (), st)
  | d :: rest, st =>
      match renderAndCreateDir d context outputDir overwriteIfExists st with
      | (Except.error e, st1) => (Except.error e, st1)
      | (Except.ok _, st1) => createDirsLoop context outputDir overwriteIfExists rest st1

/-- The `for filename in files` loop of the `generate_files` walk: skip `.swp` files,
run `generate_file` unless the path is copy-only, in which case render only the name
and copy the content verbatim. -/
def genFilesLoop (projectDir : String) (context : List (String × Value))
    (root : String) (skipIfFileExists : Bool) :
    List (String × TFile) → St → Except PyErr Unit × St
  | [], st => (Except.ok (), st)
  | (filename, tf) :: rest, st =>
      let infile := pathJoin root filename
      if endsWithSwp infile then
        genFilesLoop projectDir context root skipIfFileExists rest st
      else if !isCopyOnlyPath infile context then
        match generateFile projectDir infile context tf none skipIfFileExists st with
        | (Except.error e, st1) => (Except.error e, st1)
        | (Except.ok _, st1) =>
            genFilesLoop projectDir context root skipIfFileExists rest st1
      else
        match renderStr context infile with
        | Except.error msg => (Except.error (PyErr.undefinedError msg), st)
        | Except.ok outfileRendered =>
            let outfile := pathJoin projectDir outfileRendered
            let st1 := makeSurePathExists st (dirname outfile)
            genFilesLoop projectDir context root skipIfFileExists rest
              (copyfileSt st1 infile outfile tf.content)

/-- The `os.walk(".")` loop body of `generate_files`: for each root, create the
rendered subdirectories, then generate the files. -/
def walkLoop (projectDir : String) (context : List (String × Value))
    (overwriteIfExists skipIfFileExists : Bool) :
    List WalkEntry → St → Except PyErr Unit × St
  | [], st => (Except.ok (), st)
  | entry :: rest, st =>
      match createDirsLoop context (pathJoin projectDir entry.root) overwriteIfExists
          entry.dirs st with
      | (Except.error e, st1) => (Except.error e, st1)
      | (Except.ok _, st1) =>
          match genFilesLoop projectDir context entry.root skipIfFileExists
              entry.files st1 with
          | (Except.error e, st2) => (Except.error e, st2)
          | (Except.ok _, st2) =>
              walkLoop projectDir context overwriteIfExists skipIfFileExists rest st2

/-- `generate_files(repo_dir, context, output_dir, overwrite_if_exists,
skip_if_file_exists, accept_hooks, keep_project_on_failure)` from `generate.py`.
`context` is `None` or the top-level mapping; `walk` is the template tree as
enumerated by `os.walk` inside `repo_dir`; `hooks` tells which hook scripts exist and
how their subprocesses would behave.  Steps, in source order:

1. `context = context or \x7b\x7d`;
2. `env = create_env_with_context(context)` (generate.py line 251) — the construction
   always raises (see `createEnvWithContext`), so in the program as written every
   later step is dead code; they are still modelled in source order:
3. `render_and_create_dir(context["cookiecutter"]["_template"], ...)` — a missing key
   raises `KeyError` before any filesystem effect;
4. `project_dir = os.path.abspath(project_dir)`;
5. delete the project directory when `overwrite_if_exists` and it exists;
6. run the `pre_gen_project` hook when hooks are accepted
   (`delete_project_on_failure = not keep_project_on_failure`);
7. inside `work_in(repo_dir)`, walk the tree;
8. run the `post_gen_project` hook when hooks are accepted;
9. return the project directory. -/
def generateFiles (importable : String → Bool) (repoDir : String)
    (context : Option (List (String × Value))) (outputDir : String)
    (overwriteIfExists skipIfFileExists acceptHooks keepProjectOnFailure : Bool)
    (hooks : String → Option (String × Nat)) (walk : List WalkEntry) (st : St) :
    Except PyErr String × St :=
  let ctx := context.getD []
  match createEnvWithContext importable ctx with
  | Except.error e => (Except.error e, st)
  | Except.ok _ =>
  match lookupName ctx "cookiecutter" with
  | none => (Except.error (PyErr.keyError "cookiecutter"), st)
  | some ccVal =>
      match ccVal with
      | Value.dict cc =>
          match lookupName cc "_template" with
          | none => (Except.error (PyErr.keyError "_template"), st)
          | some (Value.str templateName) =>
              match renderAndCreateDir templateName ctx outputDir overwriteIfExists st with
              | (Except.error e, st1) => (Except.error e, st1)
              | (Except.ok dirCreated, st1) =>
                  let projectDir := abspath st1.cwd dirCreated
                  let st2 :=
                    if overwriteIfExists && pathExists st1 projectDir then
                      rmtree st1 projectDir
                    else st1
                  let preRes :=
                    if acceptHooks then
                      runHookFromRepoDir importable hooks repoDir "pre_gen_project"
                        projectDir ctx (!keepProjectOnFailure) st2
                    else (Except.ok (), st2)
                  match preRes with
                  | (Except.error e, st3) => (Except.error e, st3)
                  | (Except.ok _, st3) =>
                      match workIn (some repoDir)
                          (walkLoop projectDir ctx overwriteIfExists skipIfFileExists
                            walk) st3 with
                      | (Except.error e, st4) => (Except.error e, st4)
                      | (Except.ok _, st4) =>
                          let postRes :=
                            if acceptHooks then
                              runHookFromRepoDir importable hooks repoDir
                                "post_gen_project" projectDir ctx
                                (!keepProjectOnFailure) st4
                            else (Except.ok (), st4)
                          match postRes with
                          | (Except.error e, st5) => (Except.error e, st5)
                          | (Except.ok _, st5) => (Except.ok projectDir, st5)
          | some _ =>
              (Except.error (PyErr.typeError "template name is not a string"), st)
      | _ => (Except.error (PyErr.typeError "cookiecutter entry is not a mapping"), st)

/-! ## Observations used to state the claims -/

/-- The stored content of a file, when present. -/
def fileContent (files : List (String × String)) (p : String) : Option String :=
  match files with
  | [] => none
  | (p0, c) :: rest => if p0 = p then some c else fileContent rest p

/-- The precondition of claim C10: the top-level context (after `context or \x7b\x7d`)
has no `"cookiecutter"` mapping entry or that mapping has no `"_template"` entry. -/
def lacksTemplateKey (ctx : List (String × Value)) : Bool :=
  match lookupName ctx "cookiecutter" with
  | none => true
  | some (Value.dict cc) => (lookupName cc "_template").isNone
  | some _ => false

/-- The external import oracle in the usual situation: every requested extension
module is importable. -/
def allImportable : String → Bool := fun _ => true

/-! ## A concrete generation scenario

A template named `proj` containing a single binary file `b.bin`, generated into
`/out` where the directory `/out/proj` already exists; both the pre- and
post-generation hook scripts exist and exit successfully.  The starting working
directory, the pre-existing files and the pre-existing temporary files are arbitrary. -/

def demoContext : List (String × Value) :=
  [("cookiecutter", Value.dict [("_template", Value.str "proj")])]

def demoHooksOk : String → Option (String × Nat) := fun n =>
  if n == "pre_gen_project" || n == "post_gen_project" then some ("echo", 0) else none

def demoWalk : List WalkEntry := [⟨".", [], [("b.bin", ⟨true, "BIN"⟩)]⟩]

def demoSt (cwd : String) (files : List (String × String)) (temps : List String) : St :=
  ⟨cwd, ⟨["/out", "/out/proj"], files⟩, temps, []⟩

/-- The scenario run with `overwrite_if_exists=False`. -/
def runReuse (cwd : String) (files : List (String × String)) (temps : List String) :
    Except PyErr String × St :=
  generateFiles allImportable "/repo" (some demoContext) "/out" false false true false
    demoHooksOk demoWalk (demoSt cwd files temps)

/-- The scenario run with `overwrite_if_exists=True`. -/
def runOverwrite (cwd : String) (files : List (String × String)) (temps : List String) :
    Except PyErr String × St :=
  generateFiles allImportable "/repo" (some demoContext) "/out" true false true false
    demoHooksOk demoWalk (demoSt cwd files temps)

/-! ## Helper lemmas -/

theorem setFileList_lookup (files : List (String × String)) (p c : String) :
    fileContent (setFileList files p c) p = some c := by
  induction files with
  | nil => simp [setFileList, fileContent]
  | cons f rest ih =>
      obtain ⟨p0, c0⟩ := f
      by_cases hp : p0 = p
      · simp [setFileList, fileContent, hp]
      · simp [setFileList, fileContent, hp, ih]

theorem files_mkdirOne (st : St) (d : String) :
    (mkdirOne st d).fs.files = st.fs.files := by
  unfold mkdirOne St.addEvent
  split <;> rfl

theorem files_foldl_mkdirOne (l : List String) (st : St) :
    (l.foldl mkdirOne st).fs.files = st.fs.files := by
  induction l generalizing st with
  | nil => rfl
  | cons a rest ih => rw [List.foldl_cons, ih, files_mkdirOne]

theorem files_makeSurePathExists (st : St) (p : String) :
    (makeSurePathExists st p).fs.files = st.fs.files :=
  files_foldl_mkdirOne _ st

theorem createEnvWithContext_fails (importable : String → Bool)
    (ctx : List (String × Value)) :
    ∃ e, createEnvWithContext importable ctx = Except.error e ∧
      ∀ k, e ≠ PyErr.keyError k := by
  unfold createEnvWithContext
  cases hre : readExtensions ctx with
  | error e =>
      refine ⟨e, rfl, ?_⟩
      intro k hk
      subst hk
      unfold readExtensions at hre
      split at hre
      · simp at hre
      · split at hre <;> simp at hre
      · simp at hre
  | ok exts =>
      cases hall : exts.all importable with
      | true =>
          exact ⟨PyErr.attributeError "str object has no attribute __name__",
            by simp [hall], by intro k; simp⟩
      | false =>
          exact ⟨PyErr.unknownExtension "Unable to load extension",
            by simp [hall], by intro k; simp⟩

theorem yes_no_disjoint (s : String) (h1 : s ∈ yesChoices) (h2 : s ∈ noChoices) :
    False := by
  simp only [yesChoices, List.mem_cons, List.not_mem_nil, or_false] at h1
  rcases h1 with h | h | h | h | h | h <;> subst h <;> simp [noChoices] at h2

theorem cwd_workIn {α : Type} (d : Option String) (act : St → Except PyErr α × St)
    (st : St) : ((workIn d act st).2).cwd = st.cwd := rfl

theorem cwd_mkdirOne (st : St) (d : String) : (mkdirOne st d).cwd = st.cwd := by
  unfold mkdirOne St.addEvent
  split <;> rfl

theorem cwd_foldl_mkdirOne (l : List String) (st : St) :
    (l.foldl mkdirOne st).cwd = st.cwd := by
  induction l generalizing st with
  | nil => rfl
  | cons a rest ih => rw [List.foldl_cons, ih, cwd_mkdirOne]

theorem cwd_makeSurePathExists (st : St) (p : String) :
    (makeSurePathExists st p).cwd = st.cwd := cwd_foldl_mkdirOne _ st

theorem cwd_rmtree (st : St) (p : String) : (rmtree st p).cwd = st.cwd := rfl

theorem cwd_renderAndCreateDir (t : String) (ctx : List (String × Value))
    (od : String) (ow : Bool) (st : St) :
    ((renderAndCreateDir t ctx od ow st).2).cwd = st.cwd := by
  unfold renderAndCreateDir
  cases renderStr ctx t with
  | error msg => rfl
  | ok r =>
      simp only
      split
      · rfl
      · exact cwd_makeSurePathExists st _

theorem cwd_runHookFromRepoDir (importable : String → Bool)
    (hooks : String → Option (String × Nat))
    (rd hn pd : String) (ctx : List (String × Value)) (del : Bool) (st : St) :
    ((runHookFromRepoDir importable hooks rd hn pd ctx del st).2).cwd = st.cwd := rfl

theorem cwd_hookIf (importable : String → Bool) (b : Bool)
    (hooks : String → Option (String × Nat))
    (rd hn pd : String) (ctx : List (String × Value)) (del : Bool) (s2 : St) :
    (((if b = true then runHookFromRepoDir importable hooks rd hn pd ctx del s2
       else (Except.ok (), s2)) : Except PyErr Unit × St).2).cwd = s2.cwd := by
  split
  · exact cwd_runHookFromRepoDir importable hooks rd hn pd ctx del s2
  · rfl

/-! ## Claim theorems -/

/-- C1: evaluation of `generate_context` at a manifest `\x7b"tools": ["a"], "nested":
\x7b"a": "x", "b": "y"\x7d\x7d` with the extra overrides `\x7b"tools": ["b"], "nested":
\x7b"a": "z"\x7d, "name": "n"\x7d`.  The claim says the sequence override appends to the
manifest entry (`cookiecutter.tools == ["a", "b"]`) and the mapping override merges
into the manifest entry preserving siblings (`cookiecutter.nested == \x7b"a": "z",
"b": "y"\x7d`).  The code instead leaves both manifest entries untouched and creates new
`"tools"` and `"nested"` entries at the top level of the context wrapper, because
`apply_overwrites_to_context` is called on `\x7b"cookiecutter": obj\x7d` and only its
scalar branch redirects into `context["cookiecutter"]`; only the scalar override
(`name`) lands in the manifest as claimed. -/
theorem c1_override_merge_bug :
    generateContext
        [("tools", Value.list [Value.str "a"]),
         ("nested", Value.dict [("a", Value.str "x"), ("b", Value.str "y")])]
        none
        (some [("tools", Value.list [Value.str "b"]),
               ("nested", Value.dict [("a", Value.str "z")]),
               ("name", Value.str "n")])
      = Except.ok
          [("cookiecutter",
            Value.dict
              [("tools", Value.list [Value.str "a"]),
               ("nested", Value.dict [("a", Value.str "x"), ("b", Value.str "y")]),
               ("name", Value.str "n")]),
           ("tools", Value.list [Value.str "b"]),
           ("nested", Value.dict [("a", Value.str "z")])] := by
  simp [generateContext, applyOverwritesToContext, setKey, lookupName, hasKey]

/-- C2: evaluation of non-interactive resolution at the claim's own example manifest
`\x7b"project_name": "My App", "slug": "\x7b\x7bcookiecutter.project_name|lower\x7d\x7d"\x7d`.
The claim says `slug` resolves to `"my app"`.  The program instead aborts before
rendering anything: `prompt_for_config` first calls `create_env_with_context(context)`
(prompt.py line 237), and `StrictEnvironment` construction always raises
`AttributeError` (environment.py line 45 iterates the Jinja extensions dict's string
keys with `ext.__name__`).  Even were the environment constructible, `render_variable`
renders with `**cookiecutter_dict`, so the `cookiecutter` namespace itself would be an
undefined name — contrary to that function's own docstring. -/
theorem c2_slug_resolution_bug :
    promptForConfig allImportable
        [("project_name", RawVal.str "My App"),
         ("slug", RawVal.str "\x7b\x7bcookiecutter.project_name|lower\x7d\x7d")]
      = Except.error (PyErr.attributeError "str object has no attribute __name__") :=
  rfl

/-- C3: evaluation at a `post_gen_project` hook whose subprocess would exit with
status 1, with `keep_project_on_failure` false.  The claim says a non-zero exit is
reported as a hook-failure error and the project directory is deleted before the
failure propagates.  In the program no hook subprocess is ever spawned: `generate_files`
aborts at `create_env_with_context` (generate.py line 251) with `AttributeError`
before the hooks, leaving the state untouched; and the hook runner itself, invoked
directly, aborts with the same `AttributeError` from its own env construction
(hooks.py line 79) — were that fixed, the unimported `make_executable`
(hooks.py line 90) would raise `NameError` before `run_script`, and `run_script`'s
`subprocess.check_call` would raise `CalledProcessError`, never `FailedHookException`.
In every case `_run_hook_from_repo_dir`'s `except FailedHookException` cleanup is dead
code: the error is not a hook-failure and the project directory `/out/proj` survives
even with delete-on-failure requested. -/
theorem c3_hook_failure_bug :
    generateFiles allImportable "/repo" (some demoContext) "/out" false false true false
        (fun n => if n == "post_gen_project" then some ("echo", 1) else none)
        demoWalk ⟨"/w", ⟨["/out"], []⟩, [], []⟩
      = (Except.error (PyErr.attributeError "str object has no attribute __name__"),
         ⟨"/w", ⟨["/out"], []⟩, [], []⟩) ∧
    (runHookFromRepoDir allImportable
        (fun n => if n == "post_gen_project" then some ("echo", 1) else none)
        "/repo" "post_gen_project" "/out/proj" demoContext true
        ⟨"/w", ⟨["/out", "/out/proj"], []⟩, [], []⟩).1
      = Except.error (PyErr.attributeError "str object has no attribute __name__") ∧
    ((runHookFromRepoDir allImportable
        (fun n => if n == "post_gen_project" then some ("echo", 1) else none)
        "/repo" "post_gen_project" "/out/proj" demoContext true
        ⟨"/w", ⟨["/out", "/out/proj"], []⟩, [], []⟩).2).fs.dirs.contains "/out/proj"
      = true :=
  ⟨rfl, rfl, rfl⟩

/-- C6 counterexample: a destination file `/out/proj/doc.rst` already exists with
bytes `"OLD"`, `skip_if_file_exists` is true, and the template file `doc.rst` matches
the context's top-level `_copy_without_render` pattern `*.rst`.  The copy-only branch
of the `generate_files` walk (generate.py lines 303-310) ignores
`skip_if_file_exists` and copies unconditionally: afterwards the destination holds
`"NEW"`, refuting the claim that every already-existing destination file's bytes are
left unchanged. -/
theorem c6_copy_only_counterexample :
    pathExists ⟨"/w", ⟨["/out", "/out/proj"], [("/out/proj/doc.rst", "OLD")]⟩, [], []⟩
      "/out/proj/doc.rst" = true ∧
    fileContent [("/out/proj/doc.rst", "OLD")] "/out/proj/doc.rst" = some "OLD" ∧
    (genFilesLoop "/out/proj"
        [("_copy_without_render", Value.list [Value.str "*.rst"])] "." true
        [("doc.rst", ⟨false, "NEW"⟩)]
        ⟨"/w", ⟨["/out", "/out/proj"], [("/out/proj/doc.rst", "OLD")]⟩, [], []⟩).1
      = Except.ok () ∧
    fileContent
      (((genFilesLoop "/out/proj"
          [("_copy_without_render", Value.list [Value.str "*.rst"])] "." true
          [("doc.rst", ⟨false, "NEW"⟩)]
          ⟨"/w", ⟨["/out", "/out/proj"], [("/out/proj/doc.rst", "OLD")]⟩, [], []⟩).2).fs.files)
      "/out/proj/doc.rst" = some "NEW" :=
  ⟨rfl, rfl, rfl, rfl⟩

/-- C6 amended: for every file handled by `generate_file` — i.e. not matching a
`_copy_without_render` pattern — when `skip_if_file_exists` is true and the rendered
destination exists, the file is skipped: `generate_file` returns `False` with the
world state (hence the destination's bytes) unchanged and without error.  A file whose
path matches a copy-only pattern is instead copied unconditionally by the walk, its
destination content becoming the template file's bytes even when a destination
already existed and `skip_if_file_exists` is true. -/
theorem c6_skip_or_copy_overwrite :
    (∀ (projectDir infile : String) (context : List (String × Value)) (tf : TFile)
        (loader : Option (String → Option String)) (st : St) (r : String),
        renderStr context infile = Except.ok r →
        pathExists st (pathJoin projectDir r) = true →
        generateFile projectDir infile context tf loader true st
          = (Except.ok false, st)) ∧
    (∀ (projectDir root filename : String) (context : List (String × Value))
        (tf : TFile) (st : St) (out : String),
        endsWithSwp (pathJoin root filename) = false →
        isCopyOnlyPath (pathJoin root filename) context = true →
        renderStr context (pathJoin root filename) = Except.ok out →
        (genFilesLoop projectDir context root true [(filename, tf)] st).1
          = Except.ok () ∧
        fileContent
          (((genFilesLoop projectDir context root true [(filename, tf)] st).2).fs.files)
          (normpath (pathJoin projectDir out)) = some tf.content) := by
  constructor
  · intro projectDir infile context tf loader st r hrender hexists
    unfold generateFile
    rw [hrender]
    simp [hexists]
  · intro projectDir root filename context tf st out hswp hco hout
    have key : genFilesLoop projectDir context root true [(filename, tf)] st
        = (Except.ok (),
           copyfileSt (makeSurePathExists st (dirname (pathJoin projectDir out)))
             (pathJoin root filename) (pathJoin projectDir out) tf.content) := by
      simp [genFilesLoop, hswp, hco, hout]
    rw [key]
    refine ⟨rfl, ?_⟩
    simp [copyfileSt, St.addEvent, files_makeSurePathExists, setFileList_lookup]

/-- Witness for C6's amended theorem: the skip path at an existing `/out/a.txt`, and
the copy-only path overwriting the existing `/out/proj/doc.rst`. -/
theorem c6_skip_or_copy_overwrite_witness :
    generateFile "/out" "a.txt" [] ⟨false, "tpl"⟩ none true
        ⟨"/w", ⟨[], [("/out/a.txt", "OLD")]⟩, [], []⟩
      = (Except.ok false, ⟨"/w", ⟨[], [("/out/a.txt", "OLD")]⟩, [], []⟩) ∧
    fileContent
      (((genFilesLoop "/out/proj"
          [("_copy_without_render", Value.list [Value.str "*.rst"])] "." true
          [("doc.rst", ⟨false, "NEW"⟩)]
          ⟨"/w", ⟨["/out", "/out/proj"], [("/out/proj/doc.rst", "OLD")]⟩, [], []⟩).2).fs.files)
      (normpath (pathJoin "/out/proj" "./doc.rst")) = some "NEW" :=
  ⟨c6_skip_or_copy_overwrite.1 "/out" "a.txt" [] ⟨false, "tpl"⟩ none
     ⟨"/w", ⟨[], [("/out/a.txt", "OLD")]⟩, [], []⟩ "a.txt" rfl rfl,
   (c6_skip_or_copy_overwrite.2 "/out/proj" "." "doc.rst"
     [("_copy_without_render", Value.list [Value.str "*.rst"])] ⟨false, "NEW"⟩
     ⟨"/w", ⟨["/out", "/out/proj"], [("/out/proj/doc.rst", "OLD")]⟩, [], []⟩
     "./doc.rst" rfl rfl rfl).2⟩

/-- C7: evaluation of `run_script_with_context` at a hook execution whose script would
render fine and whose subprocess would exit with status 0.  The claim says the
temporary file holding the rendered hook script is removed after the subprocess runs,
on success and on every failure path.  The program never gets that far:
`create_env_with_context` raises `AttributeError` first (hooks.py line 79), so no
temporary file is ever created, no subprocess ever runs, and `os.remove` — which also
sits outside any `try/finally` — is unreachable; were the environment constructible,
the unimported `make_executable` (hooks.py line 90) would raise `NameError` *after*
writing the temporary file and *before* `run_script`, leaving the file behind on every
path. -/
theorem c7_temp_script_bug :
    runScriptWithContext allImportable "echo" 0 "/p" demoContext
        ⟨"/w", ⟨[], []⟩, [], []⟩
      = (Except.error (PyErr.attributeError "str object has no attribute __name__"),
         ⟨"/w", ⟨[], []⟩, [], []⟩) :=
  rfl

/-- C8: `YesNoPrompt.process_response` maps its input case-insensitively: it returns
true exactly when the lower-cased token is one of `1, true, t, yes, y, on`, false
exactly when it is one of `0, false, f, no, n, off`, and raises `InvalidResponse` (the
invalid-response retry of the surrounding prompt loop) exactly otherwise. -/
theorem c8_yes_no_token_mapping (value : String) :
    (processResponse value = Except.ok true ↔ lowerS value ∈ yesChoices) ∧
    (processResponse value = Except.ok false ↔ lowerS value ∈ noChoices) ∧
    (processResponse value = Except.error validateErrorMessage ↔
      (lowerS value ∉ yesChoices ∧ lowerS value ∉ noChoices)) := by
  unfold processResponse
  by_cases h1 : lowerS value ∈ yesChoices
  · have h2 : lowerS value ∉ noChoices := fun h2 => yes_no_disjoint _ h1 h2
    simp [h1, h2]
  · by_cases h2 : lowerS value ∈ noChoices
    · simp [h1, h2]
    · simp [h1, h2]

/-- Witness for C8 at the concrete tokens `YES`, `oFF` and `2`. -/
theorem c8_yes_no_token_mapping_witness :
    processResponse "YES" = Except.ok true ∧
    processResponse "oFF" = Except.ok false ∧
    processResponse "2" = Except.error validateErrorMessage :=
  ⟨(c8_yes_no_token_mapping "YES").1.mpr (by decide),
   (c8_yes_no_token_mapping "oFF").2.1.mpr (by decide),
   (c8_yes_no_token_mapping "2").2.2.mpr (by decide)⟩

/-- C10 counterexample: calling `generate_files` with `context=None` raises the
`AttributeError` from the environment construction — not the claimed `KeyError` —
while still leaving the world state unchanged. -/
theorem c10_keyerror_counterexample :
    generateFiles allImportable "/repo" none "/out" false false true false
        (fun _ => none) [] ⟨"/w", ⟨[], []⟩, [], []⟩
      = (Except.error (PyErr.attributeError "str object has no attribute __name__"),
         ⟨"/w", ⟨[], []⟩, [], []⟩) ∧
    ∀ key,
      (generateFiles allImportable "/repo" none "/out" false false true false
          (fun _ => none) [] ⟨"/w", ⟨[], []⟩, [], []⟩).1
        ≠ Except.error (PyErr.keyError key) :=
  ⟨rfl, fun _key h => PyErr.noConfusion (Except.error.inj h)⟩

/-- C10 amended: `generate_files` evaluates `create_env_with_context(context)`
(generate.py line 251) before `context["cookiecutter"]["_template"]`, and that
construction raises for every context — `AttributeError`, or `UnknownExtension` when
the context requests an unloadable extension.  So for every call where the context is
`None`, empty, or lacks either key, `generate_files` raises that
environment-construction exception — never the `KeyError` the claim names — before
creating any output directory, writing any file, or running any hook: the returned
world state is the input state, unchanged. -/
theorem c10_early_abort (importable : String → Bool) (repoDir : String)
    (context : Option (List (String × Value))) (outputDir : String)
    (o s a k : Bool) (hooks : String → Option (String × Nat))
    (walk : List WalkEntry) (st : St)
    (_h : lacksTemplateKey (context.getD []) = true) :
    ∃ e, generateFiles importable repoDir context outputDir o s a k hooks walk st
        = (Except.error e, st) ∧ ∀ key, e ≠ PyErr.keyError key := by
  obtain ⟨e, he, hk⟩ := createEnvWithContext_fails importable (context.getD [])
  refine ⟨e, ?_, hk⟩
  unfold generateFiles
  dsimp only
  rw [he]

/-- Witness for C10's amended theorem at `context=None`. -/
theorem c10_early_abort_witness :
    lacksTemplateKey ((none : Option (List (String × Value))).getD []) = true ∧
    ∃ e, generateFiles allImportable "/repo" none "/out" false false true false
        (fun _ => none) [] ⟨"/w", ⟨[], []⟩, [], []⟩
      = (Except.error e, ⟨"/w", ⟨[], []⟩, [], []⟩) ∧ ∀ key, e ≠ PyErr.keyError key :=
  ⟨rfl,
   c10_early_abort allImportable "/repo" none "/out" false false true false
     (fun _ => none) [] ⟨"/w", ⟨[], []⟩, [], []⟩ rfl⟩

/-- C4: evaluation at a manifest whose second variable's default references the absent
name `missing`.  The claim says resolution aborts with a template-undefined-variable
error carrying the error message and the partial context `\x7b"greeting": "hi"\x7d`.
The program aborts earlier and with a different error: `prompt_for_config`'s
environment construction (prompt.py line 237) raises `AttributeError` before any
default is rendered, so no `UndefinedVariableInTemplate` — with its message and
partial context — is ever produced, even though `render_variable` implements exactly
that wrapping. -/
theorem c4_undefined_variable_bug :
    promptForConfig allImportable
        [("greeting", RawVal.str "hi"), ("slug", RawVal.str "\x7b\x7bmissing\x7d\x7d")]
      = Except.error (PyErr.attributeError "str object has no attribute __name__") ∧
    ∀ msg ctx,
      promptForConfig allImportable
          [("greeting", RawVal.str "hi"), ("slug", RawVal.str "\x7b\x7bmissing\x7d\x7d")]
        ≠ Except.error (PyErr.uvit msg ctx) :=
  ⟨rfl, fun _msg _ctx h => PyErr.noConfusion (Except.error.inj h)⟩

/-- C5: evaluation of the generation scenario — existing project root `/out/proj`,
hooks present and well-behaved, arbitrary pre-existing files, temporary files and
working directory — under both overwrite settings.  The claim describes reuse
(`overwrite_if_exists=False`) and delete-then-recreate-after-hooks
(`overwrite_if_exists=True`).  The program performs neither: `generate_files` raises
`AttributeError` at `create_env_with_context` (generate.py line 251) before examining
the output directory, so with overwrite false the directory is never reused for
generation (the call aborts) and with overwrite true it is never deleted nor
recreated; in both runs the world state is returned unchanged and no hook runs. -/
theorem c5_overwrite_policy_bug (cwd : String) (files : List (String × String))
    (temps : List String) :
    runReuse cwd files temps
      = (Except.error (PyErr.attributeError "str object has no attribute __name__"),
         demoSt cwd files temps) ∧
    runOverwrite cwd files temps
      = (Except.error (PyErr.attributeError "str object has no attribute __name__"),
         demoSt cwd files temps) :=
  ⟨rfl, rfl⟩

/-- C9: every operation that changes the process working directory restores the
previous working directory on every exit path.  `work_in` restores it for every
enclosed action, successful or failing; `run_script` (hook subprocess execution),
`_run_hook_from_repo_dir` (hook discovery/execution) and `generate_files` (whose tree
walk runs inside `work_in(repo_dir)`) all leave the working directory exactly as they
found it, whether they return normally or propagate an error. -/
theorem c9_cwd_restored :
    (∀ (α : Type) (d : Option String) (act : St → Except PyErr α × St) (st : St),
        ((workIn d act st).2).cwd = st.cwd) ∧
    (∀ (sp : String) (ec : Nat) (dir : String) (st : St),
        ((runScript sp ec dir st).2).cwd = st.cwd) ∧
    (∀ (importable : String → Bool) (hooks : String → Option (String × Nat))
        (rd hn pd : String)
        (ctx : List (String × Value)) (del : Bool) (st : St),
        ((runHookFromRepoDir importable hooks rd hn pd ctx del st).2).cwd = st.cwd) ∧
    (∀ (importable : String → Bool) (rd : String)
        (copt : Option (List (String × Value))) (od : String)
        (o s a k : Bool) (hooks : String → Option (String × Nat))
        (walk : List WalkEntry) (st : St),
        ((generateFiles importable rd copt od o s a k hooks walk st).2).cwd
          = st.cwd) := by
  refine ⟨fun α d act st => rfl, fun sp ec dir st => rfl,
    fun imp hooks rd hn pd ctx del st => rfl, ?_⟩
  intro imp rd copt od o s a k hooks walk st
  unfold generateFiles
  dsimp only
  cases henv : createEnvWithContext imp (copt.getD []) with
  | error e => rfl
  | ok u =>
  cases hcc : lookupName (copt.getD []) "cookiecutter" with
  | none => rfl
  | some v =>
      cases v with
      | str s2 => rfl
      | int n => rfl
      | bool b => rfl
      | list xs => rfl
      | dict cc =>
          dsimp only
          cases htt : lookupName cc "_template" with
          | none => rfl
          | some tv =>
              cases tv with
              | int n => rfl
              | bool b => rfl
              | list xs => rfl
              | dict d2 => rfl
              | str templateName =>
                  dsimp only
                  cases hrcd : renderAndCreateDir templateName (copt.getD []) od o st with
                  | mk r1 st1 =>
                      have h1 : st1.cwd = st.cwd := by
                        have hx := cwd_renderAndCreateDir templateName (copt.getD []) od o st
                        rw [hrcd] at hx
                        exact hx
                      cases r1 with
                      | error e => exact h1
                      | ok dirCreated =>
                          dsimp only
                          have h2 : (if (o && pathExists st1 (abspath st1.cwd dirCreated)) = true
                              then rmtree st1 (abspath st1.cwd dirCreated) else st1).cwd
                              = st.cwd := by
                            split
                            · rw [cwd_rmtree]; exact h1
                            · exact h1
                          cases hpre : (if a = true then
                              runHookFromRepoDir imp hooks rd "pre_gen_project"
                                (abspath st1.cwd dirCreated) (copt.getD []) (!k)
                                (if (o && pathExists st1 (abspath st1.cwd dirCreated)) = true
                                 then rmtree st1 (abspath st1.cwd dirCreated) else st1)
                            else
                              (Except.ok (),
                               if (o && pathExists st1 (abspath st1.cwd dirCreated)) = true
                               then rmtree st1 (abspath st1.cwd dirCreated) else st1)) with
                          | mk r3 st3 =>
                              have h3 : st3.cwd = st.cwd := by
                                have hx := cwd_hookIf imp a hooks rd "pre_gen_project"
                                  (abspath st1.cwd dirCreated) (copt.getD []) (!k)
                                  (if (o && pathExists st1 (abspath st1.cwd dirCreated)) = true
                                   then rmtree st1 (abspath st1.cwd dirCreated) else st1)
                                rw [hpre] at hx
                                exact hx.trans h2
                              cases r3 with
                              | error e => exact h3
                              | ok u =>
                                  dsimp only
                                  cases hwalk : workIn (some rd)
                                      (walkLoop (abspath st1.cwd dirCreated) (copt.getD [])
                                        o s walk) st3 with
                                  | mk r4 st4 =>
                                      have h4 : st4.cwd = st.cwd := by
                                        have hx := cwd_workIn (some rd)
                                          (walkLoop (abspath st1.cwd dirCreated)
                                            (copt.getD []) o s walk) st3
                                        rw [hwalk] at hx
                                        exact hx.trans h3
                                      cases r4 with
                                      | error e => exact h4
                                      | ok u2 =>
                                          dsimp only
                                          cases hpost : (if a = true then
                                              runHookFromRepoDir imp hooks rd
                                                "post_gen_project"
                                                (abspath st1.cwd dirCreated) (copt.getD [])
                                                (!k) st4
                                            else (Except.ok (), st4)) with
                                          | mk r5 st5 =>
                                              have h5 : st5.cwd = st.cwd := by
                                                have hx := cwd_hookIf imp a hooks rd
                                                  "post_gen_project"
                                                  (abspath st1.cwd dirCreated)
                                                  (copt.getD []) (!k) st4
                                                rw [hpost] at hx
                                                exact hx.trans h4
                                              cases r5 with
                                              | error e => exact h5
                                              | ok u3 => exact h5

end Cookiecutter
